import Mathlib

/-!
Verification of the Key Input Controller (`key_presser.py`).

The controller owns a static table `KEY_CODES` from key names to hardware
scancodes, a mutable set `pressed_keys` of currently-held key names, and the
operations `get_hex_key_code` (lookup), `hold_key` (press), `release_key`
(release), `hold_and_release_key` (press-and-hold) and `release_all_keys`.

Embedding choices:
* The Python `set` of held key names is modelled as a duplicate-free
  `List String` (`setAdd` inserts only when absent, `setDiscard` removes
  every occurrence, mirroring `set.add` / `set.discard`).
* Each call to the OS injection primitive `SendInput` is recorded as a
  `SendInputEvent` (scancode and flags) appended to an event log.
* A Python exception is modelled by returning the final state paired with
  `some msg`; a raise aborts the operation at the raise site, so the state
  returned with an error is exactly the state at that moment.
* `str.upper` / `str.lower` are modelled by `pyUpper` / `pyLower`
  (character-wise ASCII case conversion, extensionally equal to Lean's
  `String.toUpper` / `String.toLower`), which agree with Python on the
  ASCII key names involved.
* `time.sleep` (CPython) raises `ValueError: sleep length must be
  non-negative` when its argument is negative, and otherwise just blocks;
  durations are modelled as integers since only the sign matters.
-/

namespace KeyPresser

/-- The static `KEY_CODES` table, as an association list in source order. -/
def KEY_CODES : List (String × Nat) := [
  ("Q", 0x10),
  ("E", 0x12),
  ("W", 0x11),
  ("R", 0x13),
  ("T", 0x14),
  ("Y", 0x15),
  ("U", 0x16),
  ("I", 0x17),
  ("O", 0x18),
  ("P", 0x19),
  ("A", 0x1E),
  ("S", 0x1F),
  ("D", 0x20),
  ("F", 0x21),
  ("G", 0x22),
  ("H", 0x23),
  ("J", 0x24),
  ("K", 0x25),
  ("L", 0x26),
  ("Z", 0x2C),
  ("X", 0x2D),
  ("C", 0x2E),
  ("V", 0x2F),
  ("B", 0x30),
  ("N", 0x31),
  ("M", 0x32),
  ("LEFT_ARROW", 0xCB),
  ("RIGHT_ARROW", 0xCD),
  ("UP_ARROW", 0xC8),
  ("DOWN_ARROW", 0xD0),
  ("ESC", 0x01),
  ("ONE", 0x02),
  ("TWO", 0x03),
  ("THREE", 0x04),
  ("FOUR", 0x05),
  ("FIVE", 0x06),
  ("SIX", 0x07),
  ("SEVEN", 0x08),
  ("EIGHT", 0x09),
  ("NINE", 0x0A),
  ("ZERO", 0x0B),
  ("MINUS", 0x0C),
  ("EQUALS", 0x0D),
  ("BACKSPACE", 0x0E),
  ("APOSTROPHE", 0x28),
  ("SEMICOLON", 0x27),
  ("TAB", 0x0F),
  ("CAPSLOCK", 0x3A),
  ("ENTER", 0x1C),
  ("LEFT_CONTROL", 0x1D),
  ("LEFT_ALT", 0x38),
  ("LEFT_SHIFT", 0x2A),
  ("RIGHT_SHIFT", 0x36),
  ("TILDE", 0x29),
  ("PRINTSCREEN", 0x37),
  ("NUM_LOCK", 0x45),
  ("SPACE", 0x39),
  ("DELETE", 0x53),
  ("COMMA", 0x33),
  ("PERIOD", 0x34),
  ("BACKSLASH", 0x35),
  ("FORWARDSLASH", 0x2B),
  ("LEFT_BRACKET", 0x1A),
  ("RIGHT_BRACKET", 0x1B),
  ("F1", 0x3B),
  ("F2", 0x3C),
  ("F3", 0x3D),
  ("F4", 0x3E),
  ("F5", 0x3F),
  ("F6", 0x40),
  ("F7", 0x41),
  ("F8", 0x42),
  ("F9", 0x43),
  ("F10", 0x44),
  ("F11", 0x57),
  ("F12", 0x58),
  ("NUMPAD_0", 0x52),
  ("NUMPAD_1", 0x4F),
  ("NUMPAD_2", 0x50),
  ("NUMPAD_3", 0x51),
  ("NUMPAD_4", 0x4B),
  ("NUMPAD_5", 0x4C),
  ("NUMPAD_6", 0x4D),
  ("NUMPAD_7", 0x47),
  ("NUMPAD_8", 0x48),
  ("NUMPAD_9", 0x49),
  ("NUMPAD_PLUS", 0x4E),
  ("NUMPAD_MINUS", 0x4A),
  ("NUMPAD_PERIOD", 0x53),
  ("NUMPAD_ENTER", 0x9C),
  ("NUMPAD_BACKSLASH", 0xB5),
  ("LEFT_MOUSE", 0x100),
  ("RIGHT_MOUSE", 0x101),
  ("MIDDLE_MOUSE", 0x102),
  ("MOUSE3", 0x103),
  ("MOUSE4", 0x104),
  ("MOUSE5", 0x105),
  ("MOUSE6", 0x106),
  ("MOUSE7", 0x107),
  ("MOUSE_WHEEL_UP", 0x108),
  ("MOUSE_WHEEL_DOWN", 0x109)]

def KEY_EVENT_KEY_UP : Nat := 0x0002

def KEY_EVENT_SCANCODE : Nat := 0x0008

def INPUT_KEYBOARD : Nat := 1

/-- The table's key names, in source order (`KEY_CODES.keys()`). -/
def keyNames : List String := KEY_CODES.map Prod.fst

/-- The error message raised for an unknown key name (`key_name` already
upper-cased, as in the source, which normalizes before formatting). -/
def invalidKeyMsg (key_name : String) : String :=
  key_name ++ " is not a valid key name. " ++
    "Please choose from the following valid keys: " ++
    String.intercalate ", " keyNames

/-- Models Python `str.upper` on the ASCII strings involved: upper-case
every character. Defined over the character list (rather than with
`String.toUpper`, which is extensionally equal, see `pyUpper_eq_toUpper`)
so that it evaluates by kernel reduction. -/
def pyUpper (s : String) : String := String.mk (s.data.map Char.toUpper)

/-- Models Python `str.lower` on the ASCII strings involved; see `pyUpper`. -/
def pyLower (s : String) : String := String.mk (s.data.map Char.toLower)

/-- Embeds `get_hex_key_code`: upper-cases the name, raises `ValueError`
when it is not a key of `KEY_CODES`, and otherwise returns the table entry. -/
def get_hex_key_code (key_name : String) : Except String Nat :=
  let k := pyUpper key_name
  match KEY_CODES.lookup k with
  | some hex_code => Except.ok hex_code
  | none => Except.error (invalidKeyMsg k)

/-- A key name is valid when its upper-cased form is a key of the table. -/
def validKey (key_name : String) : Bool :=
  (KEY_CODES.lookup (pyUpper key_name)).isSome

/-- The scancode of a valid key name (0 as a dummy for invalid ones). -/
def codeOf (key_name : String) : Nat :=
  (KEY_CODES.lookup (pyUpper key_name)).getD 0

/-- One call to the OS injection primitive `SendInput`: the scancode placed
in the `KEYBDINPUT` structure and its flags field. -/
structure SendInputEvent where
  code : Nat
  flags : Nat
deriving DecidableEq, Repr

/-- The controller state: the `pressed_keys` set (as a duplicate-free list)
and the log of `SendInput` calls made so far. -/
structure KPState where
  pressed_keys : List String
  events : List SendInputEvent
deriving DecidableEq, Repr

/-- Python `set.add`: insert the element when absent. -/
def setAdd (l : List String) (k : String) : List String :=
  if k ∈ l then l else l ++ [k]

/-- Python `set.discard`: remove the element; no-op when absent. -/
def setDiscard (l : List String) (k : String) : List String :=
  l.filter (fun x => x != k)

/-- Embeds `hold_key`: resolve the scancode (propagating `ValueError`),
send a key-down event with `KEY_EVENT_SCANCODE`, add the original
(un-normalized) `key_name` to `pressed_keys`. -/
def hold_key (s : KPState) (key_name : String) : KPState × Option String :=
  match get_hex_key_code key_name with
  | Except.error e => (s, some e)
  | Except.ok hex_key_code =>
    ({ pressed_keys := setAdd s.pressed_keys key_name,
       events := s.events ++ [⟨hex_key_code, KEY_EVENT_SCANCODE⟩] }, none)

/-- Embeds `release_key`: resolve the scancode (propagating `ValueError`),
send a key-up event with `KEY_EVENT_SCANCODE ||| KEY_EVENT_KEY_UP`, discard
the original `key_name` from `pressed_keys`. -/
def release_key (s : KPState) (key_name : String) : KPState × Option String :=
  match get_hex_key_code key_name with
  | Except.error e => (s, some e)
  | Except.ok hex_key_code =>
    ({ pressed_keys := setDiscard s.pressed_keys key_name,
       events := s.events ++ [⟨hex_key_code, KEY_EVENT_SCANCODE ||| KEY_EVENT_KEY_UP⟩] }, none)

/-- Models CPython `time.sleep`: raises `ValueError` when the duration is
negative, otherwise returns after blocking. Only the sign of the duration
affects control flow, so the duration is an integer. -/
def time_sleep (seconds : Int) : Except String Unit :=
  if seconds < 0 then Except.error "sleep length must be non-negative"
  else Except.ok ()

/-- Embeds `hold_and_release_key`: `hold_key`, then `time.sleep seconds`,
then `release_key`; each step propagates an exception, aborting the rest. -/
def hold_and_release_key (s : KPState) (key_name : String) (seconds : Int) :
    KPState × Option String :=
  match hold_key s key_name with
  | (s1, some e) => (s1, some e)
  | (s1, none) =>
    match time_sleep seconds with
    | Except.error e => (s1, some e)
    | Except.ok _ => release_key s1 key_name

/-- The loop of `release_all_keys` over the snapshot list: release each key
in turn; an exception aborts the remaining iterations. -/
def release_all_go : KPState → List String → KPState × Option String
  | s, [] => (s, none)
  | s, k :: ks =>
    match release_key s k with
    | (s1, none) => release_all_go s1 ks
    | (s1, some e) => (s1, some e)

/-- Embeds `release_all_keys`: iterate over `list(self.pressed_keys)` (a
snapshot of the set) and call `release_key` on each element. -/
def release_all_keys (s : KPState) : KPState × Option String :=
  release_all_go s s.pressed_keys

/-- The initial controller state built by `__init__`. -/
def initState : KPState := ⟨[], []⟩

/-! ### Case-conversion helper lemmas -/

theorem char_toNat_ofNat_of_lt (n : Nat) (h : n < 55296) : (Char.ofNat n).toNat = n := by
  have hv : n.isValidChar := Or.inl h
  unfold Char.ofNat
  rw [dif_pos hv]
  rfl

theorem char_toUpper_of_lower (c : Char) (h1 : 97 ≤ c.toNat) (h2 : c.toNat ≤ 122) :
    c.toUpper = Char.ofNat (c.toNat - 32) := by
  simp only [Char.toUpper]
  exact if_pos (by omega)

theorem char_toUpper_of_not_lower (c : Char) (h : ¬(97 ≤ c.toNat ∧ c.toNat ≤ 122)) :
    c.toUpper = c := by
  simp only [Char.toUpper]
  exact if_neg (by omega)

theorem char_toLower_of_upper (c : Char) (h1 : 65 ≤ c.toNat) (h2 : c.toNat ≤ 90) :
    c.toLower = Char.ofNat (c.toNat + 32) := by
  simp only [Char.toLower]
  exact if_pos (by omega)

theorem char_toLower_of_not_upper (c : Char) (h : ¬(65 ≤ c.toNat ∧ c.toNat ≤ 90)) :
    c.toLower = c := by
  simp only [Char.toLower]
  exact if_neg (by omega)

theorem char_toUpper_toUpper (c : Char) : c.toUpper.toUpper = c.toUpper := by
  by_cases h : 97 ≤ c.toNat ∧ c.toNat ≤ 122
  · rw [char_toUpper_of_lower c h.1 h.2]
    have ht := char_toNat_ofNat_of_lt (c.toNat - 32) (by omega)
    exact char_toUpper_of_not_lower _ (by omega)
  · rw [char_toUpper_of_not_lower c h]
    exact char_toUpper_of_not_lower c h

theorem char_toUpper_toLower (c : Char) : c.toLower.toUpper = c.toUpper := by
  by_cases h : 65 ≤ c.toNat ∧ c.toNat ≤ 90
  · rw [char_toLower_of_upper c h.1 h.2]
    have ht := char_toNat_ofNat_of_lt (c.toNat + 32) (by omega)
    rw [char_toUpper_of_lower _ (by omega) (by omega), ht]
    have h32 : c.toNat + 32 - 32 = c.toNat := by omega
    rw [h32, Char.ofNat_toNat]
    exact (char_toUpper_of_not_lower c (by omega)).symm
  · rw [char_toLower_of_not_upper c h]

theorem pyUpper_eq_toUpper (s : String) : pyUpper s = s.toUpper :=
  (String.map_eq _ _).symm

theorem pyLower_eq_toLower (s : String) : pyLower s = s.toLower :=
  (String.map_eq _ _).symm

theorem pyUpper_pyUpper (s : String) : pyUpper (pyUpper s) = pyUpper s := by
  unfold pyUpper
  simp only [List.map_map]
  congr 1
  apply List.map_congr_left
  intro c _
  exact char_toUpper_toUpper c

theorem pyUpper_pyLower (s : String) : pyUpper (pyLower s) = pyUpper s := by
  unfold pyUpper pyLower
  simp only [List.map_map]
  congr 1
  apply List.map_congr_left
  intro c _
  exact char_toUpper_toLower c

/-! ### Operation helper lemmas -/

theorem get_hex_key_code_of_valid (k : String) (h : validKey k = true) :
    get_hex_key_code k = Except.ok (codeOf k) := by
  unfold validKey at h
  unfold get_hex_key_code codeOf
  cases hl : KEY_CODES.lookup (pyUpper k) <;> simp [hl] at h ⊢

theorem get_hex_key_code_of_invalid (k : String) (h : validKey k = false) :
    get_hex_key_code k = Except.error (invalidKeyMsg (pyUpper k)) := by
  unfold validKey at h
  unfold get_hex_key_code
  cases hl : KEY_CODES.lookup (pyUpper k) <;> simp [hl] at h ⊢

theorem hold_key_of_valid (s : KPState) (k : String) (h : validKey k = true) :
    hold_key s k =
      ({ pressed_keys := setAdd s.pressed_keys k,
         events := s.events ++ [⟨codeOf k, KEY_EVENT_SCANCODE⟩] }, none) := by
  unfold hold_key
  rw [get_hex_key_code_of_valid k h]

theorem release_key_of_valid (s : KPState) (k : String) (h : validKey k = true) :
    release_key s k =
      ({ pressed_keys := setDiscard s.pressed_keys k,
         events := s.events ++ [⟨codeOf k, KEY_EVENT_SCANCODE ||| KEY_EVENT_KEY_UP⟩] },
       none) := by
  unfold release_key
  rw [get_hex_key_code_of_valid k h]

theorem mem_setAdd_self (l : List String) (k : String) : k ∈ setAdd l k := by
  unfold setAdd
  by_cases h : k ∈ l <;> simp [h]

theorem mem_setAdd_of_mem (l : List String) (k x : String) (hx : x ∈ l) :
    x ∈ setAdd l k := by
  unfold setAdd
  by_cases h : k ∈ l <;> simp [h, hx]

theorem not_mem_setDiscard_self (l : List String) (k : String) :
    k ∉ setDiscard l k := by
  unfold setDiscard
  simp

theorem mem_setDiscard_of_ne (l : List String) (k x : String) (hx : x ∈ l)
    (hne : x ≠ k) : x ∈ setDiscard l k := by
  unfold setDiscard
  simp [hx, hne]

theorem setDiscard_of_not_mem (l : List String) (k : String) (h : k ∉ l) :
    setDiscard l k = l := by
  unfold setDiscard
  apply List.filter_eq_self.mpr
  intro x hx
  simp only [bne_iff_ne, ne_eq]
  intro hxk
  exact h (hxk ▸ hx)

theorem release_all_go_spec (ks : List String) : ∀ s : KPState,
    (∀ k ∈ ks, validKey k = true) →
    release_all_go s ks =
      ({ pressed_keys := s.pressed_keys.filter (fun x => !(ks.contains x)),
         events := s.events ++
           ks.map (fun k => ⟨codeOf k, KEY_EVENT_SCANCODE ||| KEY_EVENT_KEY_UP⟩) },
       none) := by
  induction ks with
  | nil =>
    intro s _
    simp [release_all_go]
  | cons k ks ih =>
    intro s hval
    have hk : validKey k = true := hval k (by simp)
    unfold release_all_go
    rw [release_key_of_valid s k hk]
    dsimp only
    rw [ih _ (fun x hx => hval x (by simp [hx]))]
    simp only [setDiscard, List.filter_filter, List.map_cons, List.append_assoc,
      List.singleton_append, List.contains_cons]
    congr 1
    congr 1
    apply List.filter_congr
    intro x _
    cases hxk : x == k <;> simp [hxk, bne]

/-! ### Claims -/

/-- Claim C1: for every controller state whose held-keys set consists of
valid key names (as every reachable state does, since only successful
presses add keys), `release_all_keys` iterates a snapshot of the set,
raises no error, empties the set, and appends exactly one key-up
`SendInput` call per originally-held key name — no duplicates (the set is
duplicate-free) and no omissions. -/
theorem release_all_keys_correct (s : KPState)
    (hval : ∀ k ∈ s.pressed_keys, validKey k = true)
    (_hnd : s.pressed_keys.Nodup) :
    (release_all_keys s).2 = none ∧
    (release_all_keys s).1.pressed_keys = [] ∧
    (release_all_keys s).1.events = s.events ++
      s.pressed_keys.map (fun k => ⟨codeOf k, KEY_EVENT_SCANCODE ||| KEY_EVENT_KEY_UP⟩) := by
  unfold release_all_keys
  rw [release_all_go_spec s.pressed_keys s hval]
  refine ⟨rfl, ?_, rfl⟩
  simp

/-- Claim C1 witness: releasing all of the held set given by pressing
`A`, `SPACE` and `LEFT_ARROW`. -/
theorem release_all_keys_correct_witness :
    (release_all_keys ⟨["A", "SPACE", "LEFT_ARROW"], []⟩).2 = none ∧
    (release_all_keys ⟨["A", "SPACE", "LEFT_ARROW"], []⟩).1.pressed_keys = [] ∧
    (release_all_keys ⟨["A", "SPACE", "LEFT_ARROW"], []⟩).1.events =
      KPState.events ⟨["A", "SPACE", "LEFT_ARROW"], []⟩ ++
      (KPState.pressed_keys ⟨["A", "SPACE", "LEFT_ARROW"], []⟩).map
        (fun k => ⟨codeOf k, KEY_EVENT_SCANCODE ||| KEY_EVENT_KEY_UP⟩) :=
  release_all_keys_correct ⟨["A", "SPACE", "LEFT_ARROW"], []⟩ (by decide) (by decide)

/-- Claim C2: for every valid key name `k`, after `hold_key` the held set
contains `k`; after `hold_key` followed immediately by `release_key` with
the same string, it does not. -/
theorem press_release_membership (s : KPState) (k : String)
    (h : validKey k = true) :
    k ∈ (hold_key s k).1.pressed_keys ∧
    k ∉ (release_key (hold_key s k).1 k).1.pressed_keys := by
  rw [hold_key_of_valid s k h]
  dsimp only
  refine ⟨mem_setAdd_self _ _, ?_⟩
  rw [release_key_of_valid _ k h]
  exact not_mem_setDiscard_self _ _

/-- Claim C2 witness: press and release of `SPACE` from the initial state. -/
theorem press_release_membership_witness :
    "SPACE" ∈ (hold_key initState "SPACE").1.pressed_keys ∧
    "SPACE" ∉ (release_key (hold_key initState "SPACE").1 "SPACE").1.pressed_keys :=
  press_release_membership initState "SPACE" (by decide)

/-- Claim C3: for every string whose upper-cased form is not a key of the
table, `get_hex_key_code`, `hold_key` and `release_key` all fail with the
unknown-key `ValueError`, whose message joins `keyNames` (the list of all
valid key names) with a comma — and that list holds every valid name
exactly once. -/
theorem unknown_key_error (s : KPState) (k : String) (h : validKey k = false) :
    get_hex_key_code k = Except.error (invalidKeyMsg (pyUpper k)) ∧
    hold_key s k = (s, some (invalidKeyMsg (pyUpper k))) ∧
    release_key s k = (s, some (invalidKeyMsg (pyUpper k))) ∧
    (∀ n ∈ keyNames, keyNames.count n = 1) := by
  have hg := get_hex_key_code_of_invalid k h
  refine ⟨hg, ?_, ?_, ?_⟩
  · unfold hold_key
    rw [hg]
  · unfold release_key
    rw [hg]
  · intro n hn
    exact List.count_eq_one_of_mem (by decide) hn

/-- Claim C3 witness: the invalid name `bogus` against the initial state. -/
theorem unknown_key_error_witness :
    get_hex_key_code "bogus" = Except.error (invalidKeyMsg (pyUpper "bogus")) ∧
    hold_key initState "bogus" = (initState, some (invalidKeyMsg (pyUpper "bogus"))) ∧
    release_key initState "bogus" = (initState, some (invalidKeyMsg (pyUpper "bogus"))) ∧
    (∀ n ∈ keyNames, keyNames.count n = 1) :=
  unknown_key_error initState "bogus" (by decide)

/-- Claim C4: for every valid key name, lookup returns the same scancode
for the name, its upper-cased form and its lower-cased form (`pyUpper` and
`pyLower` model Python `str.upper` / `str.lower`); lookup is a pure
function, hence deterministic. -/
theorem lookup_case_insensitive (k : String) (h : validKey k = true) :
    ∃ code, get_hex_key_code k = Except.ok code ∧
      get_hex_key_code (pyUpper k) = Except.ok code ∧
      get_hex_key_code (pyLower k) = Except.ok code := by
  have hu : validKey (pyUpper k) = true := by
    unfold validKey at h ⊢
    rw [pyUpper_pyUpper]
    exact h
  have hl : validKey (pyLower k) = true := by
    unfold validKey at h ⊢
    rw [pyUpper_pyLower]
    exact h
  refine ⟨codeOf k, get_hex_key_code_of_valid k h, ?_, ?_⟩
  · rw [get_hex_key_code_of_valid _ hu]
    unfold codeOf
    rw [pyUpper_pyUpper]
  · rw [get_hex_key_code_of_valid _ hl]
    unfold codeOf
    rw [pyUpper_pyLower]

/-- Claim C4 witness: the key name `Space` in mixed case. -/
theorem lookup_case_insensitive_witness :
    ∃ code, get_hex_key_code "Space" = Except.ok code ∧
      get_hex_key_code (pyUpper "Space") = Except.ok code ∧
      get_hex_key_code (pyLower "Space") = Except.ok code :=
  lookup_case_insensitive "Space" (by decide)

/-- Claim C5 counterexample: with duration `-1`, `hold_and_release_key` on
the valid key `A` does not complete normally — `time.sleep` raises
`ValueError`, the release is skipped, and `A` stays in the held-keys set.
This refutes the claim that a zero-or-negative duration completes normally
with the key released. -/
theorem hold_and_release_key_negative_cex :
    ¬((hold_and_release_key initState "A" (-1)).2 = none ∧
      "A" ∉ (hold_and_release_key initState "A" (-1)).1.pressed_keys) := by
  decide

/-- Claim C5 as amended: for every valid key name `k`, if the duration is
zero or positive then `hold_and_release_key` completes normally and the
held-keys set does not contain `k` upon return; if the duration is
negative, `time.sleep` raises `ValueError: sleep length must be
non-negative`, the release is skipped, and `k` remains held. -/
theorem hold_and_release_key_duration (s : KPState) (k : String) (d : Int)
    (h : validKey k = true) :
    (0 ≤ d → (hold_and_release_key s k d).2 = none ∧
      k ∉ (hold_and_release_key s k d).1.pressed_keys) ∧
    (d < 0 →
      (hold_and_release_key s k d).2 = some "sleep length must be non-negative" ∧
      k ∈ (hold_and_release_key s k d).1.pressed_keys) := by
  unfold hold_and_release_key
  rw [hold_key_of_valid s k h]
  dsimp only
  constructor
  · intro hd
    unfold time_sleep
    rw [if_neg (by omega)]
    dsimp only
    rw [release_key_of_valid _ k h]
    exact ⟨rfl, not_mem_setDiscard_self _ _⟩
  · intro hd
    unfold time_sleep
    rw [if_pos hd]
    dsimp only
    exact ⟨rfl, mem_setAdd_self _ _⟩

/-- Claim C5 amended witness: the key `SPACE` with duration `0`. -/
theorem hold_and_release_key_duration_witness :
    ((0 : Int) ≤ 0 → (hold_and_release_key initState "SPACE" 0).2 = none ∧
      "SPACE" ∉ (hold_and_release_key initState "SPACE" 0).1.pressed_keys) ∧
    ((0 : Int) < 0 →
      (hold_and_release_key initState "SPACE" 0).2 =
        some "sleep length must be non-negative" ∧
      "SPACE" ∈ (hold_and_release_key initState "SPACE" 0).1.pressed_keys) :=
  hold_and_release_key_duration initState "SPACE" 0 (by decide)

/-- Claim C6 counterexample: the scancode mapping is not injective — the
two distinct key names `DELETE` and `NUMPAD_PERIOD` both map to scancode
`0x53`, refuting the claimed 1:1 association. -/
theorem KEY_CODES_not_injective :
    (KEY_CODES.lookup "DELETE" = some 0x53 ∧
     KEY_CODES.lookup "NUMPAD_PERIOD" = some 0x53 ∧
     "DELETE" ≠ "NUMPAD_PERIOD") ∧
    ¬(∀ p ∈ KEY_CODES, ∀ q ∈ KEY_CODES, p.2 = q.2 → p.1 = q.1) := by
  refine ⟨by decide, fun hinj => ?_⟩
  have hd := hinj ("DELETE", 0x53) (by decide) ("NUMPAD_PERIOD", 0x53) (by decide) rfl
  exact absurd hd (by decide)

/-- Claim C6 as amended: every valid key name maps to exactly one scancode
(the table's names are pairwise distinct, so indexing is unambiguous), and
the mapping is injective except for the single collision between `DELETE`
and `NUMPAD_PERIOD`, which share scancode `0x53`. -/
theorem KEY_CODES_functional_almost_injective :
    keyNames.Nodup ∧
    List.Pairwise
      (fun p q => p.2 = q.2 → p.1 = "DELETE" ∧ q.1 = "NUMPAD_PERIOD")
      KEY_CODES := by
  decide

/-- Claim C7: for every string whose upper-cased form is not a key of the
table, `hold_key` raises the unknown-key `ValueError` before any injection
is attempted: the returned state is unchanged, so the held-keys set is
untouched and no `SendInput` call was logged. -/
theorem hold_key_invalid_atomic (s : KPState) (k : String)
    (h : validKey k = false) :
    hold_key s k = (s, some (invalidKeyMsg (pyUpper k))) ∧
    (hold_key s k).1.pressed_keys = s.pressed_keys ∧
    (hold_key s k).1.events = s.events := by
  have he : hold_key s k = (s, some (invalidKeyMsg (pyUpper k))) := by
    unfold hold_key
    rw [get_hex_key_code_of_invalid k h]
  exact ⟨he, by rw [he], by rw [he]⟩

/-- Claim C7 witness: the invalid name `not_a_key` against a state already
holding `SPACE`. -/
theorem hold_key_invalid_atomic_witness :
    hold_key ⟨["SPACE"], []⟩ "not_a_key" =
      (⟨["SPACE"], []⟩, some (invalidKeyMsg (pyUpper "not_a_key"))) ∧
    (hold_key ⟨["SPACE"], []⟩ "not_a_key").1.pressed_keys =
      KPState.pressed_keys ⟨["SPACE"], []⟩ ∧
    (hold_key ⟨["SPACE"], []⟩ "not_a_key").1.events =
      KPState.events ⟨["SPACE"], []⟩ :=
  hold_key_invalid_atomic ⟨["SPACE"], []⟩ "not_a_key" (by decide)

/-- Claim C8: for every valid key name `k` not currently held,
`release_key` raises no error and leaves the held-keys set unchanged
(discarding an absent element is a no-op on the set; a key-up event is
still injected, but the set is untouched). -/
theorem release_absent_noop (s : KPState) (k : String)
    (h : validKey k = true) (habs : k ∉ s.pressed_keys) :
    (release_key s k).2 = none ∧
    (release_key s k).1.pressed_keys = s.pressed_keys := by
  rw [release_key_of_valid s k h]
  exact ⟨rfl, setDiscard_of_not_mem _ _ habs⟩

/-- Claim C8 witness: releasing `F1`, never pressed, from the initial
state. -/
theorem release_absent_noop_witness :
    (release_key initState "F1").2 = none ∧
    (release_key initState "F1").1.pressed_keys =
      KPState.pressed_keys initState :=
  release_absent_noop initState "F1" (by decide) (by decide)

/-- Claim C9: `lookup("space")` returns scancode `0x39`, `lookup("f12")`
returns `0x58`, and `lookup("nonexistent_key")` raises the unknown-key
`ValueError` whose message joins the full list of valid key names (all
101 of them, each exactly once). -/
theorem lookup_scenarios :
    get_hex_key_code "space" = Except.ok 0x39 ∧
    get_hex_key_code "f12" = Except.ok 0x58 ∧
    get_hex_key_code "nonexistent_key" =
      Except.error (invalidKeyMsg "NONEXISTENT_KEY") ∧
    invalidKeyMsg "NONEXISTENT_KEY" =
      "NONEXISTENT_KEY is not a valid key name. " ++
        "Please choose from the following valid keys: " ++
        String.intercalate ", " keyNames ∧
    keyNames.length = 101 ∧ keyNames.Nodup := by
  refine ⟨rfl, rfl, rfl, rfl, rfl, by decide⟩

/-- Claim C10: `hold_key` stores the caller's original string while lookup
normalizes only a local copy. For two different-cased spellings of the
same key (distinct strings with the same upper-cased form), pressing the
first and then releasing the second leaves the first string in the
held-keys set, and pressing both yields two distinct entries in the set. -/
theorem held_keys_case_sensitive (s : KPState) (k1 k2 : String)
    (h1 : validKey k1 = true) (h2 : validKey k2 = true)
    (hne : k1 ≠ k2) (_hcase : pyUpper k1 = pyUpper k2) :
    k1 ∈ (release_key (hold_key s k1).1 k2).1.pressed_keys ∧
    k1 ∈ (hold_key (hold_key s k1).1 k2).1.pressed_keys ∧
    k2 ∈ (hold_key (hold_key s k1).1 k2).1.pressed_keys := by
  rw [hold_key_of_valid s k1 h1]
  dsimp only
  refine ⟨?_, ?_, ?_⟩
  · rw [release_key_of_valid _ k2 h2]
    exact mem_setDiscard_of_ne _ _ _ (mem_setAdd_self _ _) hne
  · rw [hold_key_of_valid _ k2 h2]
    exact mem_setAdd_of_mem _ _ _ (mem_setAdd_self _ _)
  · rw [hold_key_of_valid _ k2 h2]
    exact mem_setAdd_self _ _

/-- Claim C10 witness: the spellings `a` and `A` of the same key. -/
theorem held_keys_case_sensitive_witness :
    "a" ∈ (release_key (hold_key initState "a").1 "A").1.pressed_keys ∧
    "a" ∈ (hold_key (hold_key initState "a").1 "A").1.pressed_keys ∧
    "A" ∈ (hold_key (hold_key initState "a").1 "A").1.pressed_keys :=
  held_keys_case_sensitive initState "a" "A" (by decide) (by decide)
    (by decide) (by decide)

end KeyPresser
